import Mathlib

/-!
# The command-line driver of the all-pairs similarity search (`main.cc`)

A shallow embedding of `main` of `src/main.cc`: the byte-budget arithmetic of
lines 34-39, the two argument checks, the calls into the data source and into
`AllPairs`, and everything `main` itself inserts into `std::cerr`.

`AllPairs`, `DataSourceIterator`, `strtod` and `time` are not defined in
`main.cc`; they are fields of `World`, and every theorem quantifies over them.
Each of them is a total function: a call that does not return is outside the model,
and so is whatever the callees themselves write to the streams.
-/

namespace AllPairsMain

/-! ## Machine integers (LP64: `long` and `size_t` are 64 bits wide) -/

/-- Conversion of a `long` to `unsigned long`: reduction modulo `2^64`. -/
def toUnsigned (z : Int) : Nat := (z % (2 ^ 64 : Int)).toNat

/-- Conversion of an `unsigned long` to `long` (two's complement). -/
def toLong (n : Nat) : Int :=
  if n % 2 ^ 64 < 2 ^ 63 then ((n % 2 ^ 64 : Nat) : Int) else ((n % 2 ^ 64 : Nat) : Int) - 2 ^ 64

/-- Multiplication of two `unsigned long` values. -/
def umul (a b : Nat) : Nat := (a * b) % 2 ^ 64

/-- Subtraction of two `unsigned long` values. -/
def usub (a b : Nat) : Nat := (a % 2 ^ 64 + 2 ^ 64 - b % 2 ^ 64) % 2 ^ 64

/-- Multiplication of two `long` values. Signed overflow is undefined in C; the model
reduces the product to the 64-bit two's complement range. -/
def lmul (a b : Int) : Int := toLong (toUnsigned (a * b))

/-- Subtraction of two `long` values (`time_t` is `long`). Signed overflow is undefined
in C; the model reduces the difference to the 64-bit two's complement range. -/
def lsub (a b : Int) : Int := toLong (toUnsigned (a - b))

/-! ## The budget constants of `main` (lines 34-39) -/

/-- Line 34: `const long max_memory_usage = 4294967296;` -/
def max_memory_usage : Int := 4294967296

/-- Line 35: `const long max_feature_id_1gb = 600000;` -/
def max_feature_id_1gb : Int := 600000

/-- Line 36: `const long max_features_in_ram_1gb = 120000000;` -/
def max_features_in_ram_1gb : Int := 120000000

/-- Line 37. `sizeofVector` is `sizeof(std::vector<uint32_t>)` and `sizeofU32` is
`sizeof(uint32_t)`; both have type `size_t`, so every product and difference they
take part in is computed in `unsigned long`, and the result is converted to `long`:
`(max_memory_usage / 4) - (sizeof(vector) * max_feature_id_1gb)
   - (2 * sizeof(uint32_t) * max_features_in_ram_1gb)`. -/
def overhead (sizeofVector sizeofU32 : Nat) : Int :=
  toLong
    (usub
      (usub (toUnsigned (max_memory_usage / 4))
        (umul (sizeofVector % 2 ^ 64) (toUnsigned max_feature_id_1gb)))
      (umul (umul 2 (sizeofU32 % 2 ^ 64)) (toUnsigned max_features_in_ram_1gb)))

/-- Line 38: `const long max_feature_id_4gb = 3072241;` -/
def max_feature_id_4gb : Int := 3072241

/-- Line 39:
`(max_memory_usage - (sizeof(vector) * max_feature_id_4gb) - (overhead * 4))
   / (2 * sizeof(uint32_t))`, again in `unsigned long`, converted to `long`.
Division by zero (only possible when `sizeofU32` is a multiple of `2^63`) follows
Lean's convention `n / 0 = 0`. -/
def max_features_in_ram_4gb (sizeofVector sizeofU32 : Nat) : Int :=
  toLong
    (usub
        (usub (toUnsigned max_memory_usage)
          (umul (sizeofVector % 2 ^ 64) (toUnsigned max_feature_id_4gb)))
        (toUnsigned (lmul (overhead sizeofVector sizeofU32) 4))
      / umul 2 (sizeofU32 % 2 ^ 64))

/-! The same two quantities over unbounded integers. -/

/-- The overhead over the unbounded integers. -/
def overheadExact (sizeofVector sizeofU32 : Int) : Int :=
  max_memory_usage / 4 - sizeofVector * max_feature_id_1gb
    - 2 * sizeofU32 * max_features_in_ram_1gb

/-- The feature budget over the unbounded integers. -/
def maxFeaturesInRamExact (sizeofVector sizeofU32 : Int) : Int :=
  (max_memory_usage - sizeofVector * max_feature_id_4gb
      - overheadExact sizeofVector sizeofU32 * 4) / (2 * sizeofU32)

/-- The exact value of every intermediate expression of lines 37 and 39, in evaluation
order of the expression tree. -/
def budgetIntermediates (sizeofVector sizeofU32 : Int) : List Int :=
  [ max_memory_usage / 4,
    sizeofVector * max_feature_id_1gb,
    max_memory_usage / 4 - sizeofVector * max_feature_id_1gb,
    2 * sizeofU32,
    2 * sizeofU32 * max_features_in_ram_1gb,
    overheadExact sizeofVector sizeofU32,
    sizeofVector * max_feature_id_4gb,
    max_memory_usage - sizeofVector * max_feature_id_4gb,
    overheadExact sizeofVector sizeofU32 * 4,
    max_memory_usage - sizeofVector * max_feature_id_4gb
      - overheadExact sizeofVector sizeofU32 * 4,
    maxFeaturesInRamExact sizeofVector sizeofU32 ]

/-- The value the 64-bit machine computes for each of these intermediate expressions,
in the same order; a value of type `unsigned long` is listed as the number it denotes. -/
def budgetIntermediatesMachine (sizeofVector sizeofU32 : Nat) : List Int :=
  [ max_memory_usage / 4,
    (umul (sizeofVector % 2 ^ 64) (toUnsigned max_feature_id_1gb) : Nat),
    (usub (toUnsigned (max_memory_usage / 4))
      (umul (sizeofVector % 2 ^ 64) (toUnsigned max_feature_id_1gb)) : Nat),
    (umul 2 (sizeofU32 % 2 ^ 64) : Nat),
    (umul (umul 2 (sizeofU32 % 2 ^ 64)) (toUnsigned max_features_in_ram_1gb) : Nat),
    overhead sizeofVector sizeofU32,
    (umul (sizeofVector % 2 ^ 64) (toUnsigned max_feature_id_4gb) : Nat),
    (usub (toUnsigned max_memory_usage)
      (umul (sizeofVector % 2 ^ 64) (toUnsigned max_feature_id_4gb)) : Nat),
    lmul (overhead sizeofVector sizeofU32) 4,
    (usub
      (usub (toUnsigned max_memory_usage)
        (umul (sizeofVector % 2 ^ 64) (toUnsigned max_feature_id_4gb)))
      (toUnsigned (lmul (overhead sizeofVector sizeofU32) 4)) : Nat),
    max_features_in_ram_4gb sizeofVector sizeofU32 ]

/-! ## Values of type `double`

Only the two comparisons of line 47 are applied to the threshold, and comparisons of
doubles are exact, so a double is represented by the value it denotes. -/

/-- A value of type `double`: a NaN, an infinity, or a finite number (`-0.0` and `0.0`
both denote `0`). -/
inductive Double where
  | nan
  | inf (negative : Bool)
  | finite (q : ℚ)
  deriving DecidableEq

namespace Double

/-- The C++ comparison `a <= b` on doubles: false as soon as one operand is a NaN. -/
def le : Double → Double → Bool
  | nan, _ => false
  | _, nan => false
  | inf true, _ => true
  | _, inf false => true
  | inf false, _ => false
  | _, inf true => false
  | finite a, finite b => decide (a ≤ b)

/-- The C++ comparison `a > b` on doubles: false as soon as one operand is a NaN. -/
def gt : Double → Double → Bool
  | nan, _ => false
  | _, nan => false
  | inf true, _ => false
  | _, inf false => false
  | inf false, _ => true
  | _, inf true => true
  | finite a, finite b => decide (a > b)

/-- The double denotes a real number of the interval `(0, 1]`. -/
def inUnitInterval : Double → Prop
  | finite q => 0 < q ∧ q ≤ 1
  | _ => False

instance : DecidablePred inUnitInterval := fun d =>
  match d with
  | nan => isFalse (fun h => h)
  | inf _ => isFalse (fun h => h)
  | finite q => inferInstanceAs (Decidable (0 < q ∧ q ≤ 1))

end Double

/-! ## What `main` does to the outside world -/

/-- One right-hand operand of an insertion `std::cerr << operand` made by `main`. -/
inductive Piece where
  /-- A string or character literal of the source. -/
  | lit (s : String)
  /-- The threshold, a `double` (line 53). -/
  | dbl (d : Double)
  /-- The value returned by one of the three statistics accessors (lines 66-70). -/
  | count (n : Nat)
  /-- The difference `end_time - start_time` of two `time_t` values (line 75). -/
  | secs (z : Int)
  /-- The string returned by `GetErrorMessage` (line 63). -/
  | msg (s : String)
  /-- The manipulator `std::endl`. -/
  | endl
  deriving DecidableEq

/-- The observable actions of `main`, in program order. -/
inductive Event where
  /-- A call of `time` (lines 32 and 74). -/
  | time
  /-- One insertion into `std::cerr`. -/
  | cerr (p : Piece)
  /-- The call `DataSourceIterator::Get(argv[2])` (line 56). -/
  | get (path : String)
  /-- The call `ap.FindAllSimilarPairs(threshold, data.get(), max_feature_id_4gb,
  max_features_in_ram_4gb)` (line 61), with the values of its three scalar arguments. -/
  | findAllSimilarPairs (threshold : Double) (maxFeatureId maxFeaturesInRam : Int)
  /-- The call `data->GetErrorMessage()` (line 63). -/
  | getErrorMessage
  /-- The call `ap.SimilarPairsCount()` (line 66). -/
  | similarPairsCount
  /-- The call `ap.CandidatesConsidered()` (line 67). -/
  | candidatesConsidered
  /-- The call `ap.IntersectionsPerformed()` (line 70). -/
  | intersectionsPerformed
  deriving DecidableEq

/-- Everything `main` takes from outside `main.cc`. `DataSourceIterator` and `AllPairs`
are the states of the two objects; `FindAllSimilarPairs` returns its `bool` together
with the states it leaves the two objects in. -/
structure World (DataSourceIterator AllPairs : Type) where
  /-- The value of `sizeof(std::vector<uint32_t>)`. -/
  sizeofVector : Nat
  /-- The value of `sizeof(uint32_t)`. -/
  sizeofU32 : Nat
  /-- The value the first call of `time` stores. -/
  startTime : Int
  /-- The value the second call of `time` stores. -/
  endTime : Int
  /-- The library function `strtod(s, 0)`. -/
  strtod : String → Double
  /-- The factory `DataSourceIterator::Get`; `none` is the null pointer. -/
  Get : String → Option DataSourceIterator
  /-- A default-constructed `AllPairs` (line 59). -/
  newAllPairs : AllPairs
  /-- The method `AllPairs::FindAllSimilarPairs`. -/
  FindAllSimilarPairs :
    AllPairs → Double → DataSourceIterator → Int → Int → Bool × AllPairs × DataSourceIterator
  /-- The method `DataSourceIterator::GetErrorMessage`. -/
  GetErrorMessage : DataSourceIterator → String
  /-- The method `AllPairs::SimilarPairsCount`. -/
  SimilarPairsCount : AllPairs → Nat
  /-- The method `AllPairs::CandidatesConsidered`. -/
  CandidatesConsidered : AllPairs → Nat
  /-- The method `AllPairs::IntersectionsPerformed`. -/
  IntersectionsPerformed : AllPairs → Nat

/-- A finished run of `main`: the value it returns and what it did. -/
structure Run where
  exitCode : Int
  trace : List Event
  deriving DecidableEq

/-- Line 43: the usage error. -/
def usageError : List Event :=
  [.cerr (.lit "ERROR: Usage is: ./ap <sim_threshold> <dataset_path>\n")]

/-- Lines 48-49: the threshold error, written by two insertions. -/
def thresholdError : List Event :=
  [.cerr (.lit "ERROR: The first argument should be a similarity "),
   .cerr (.lit "threshhold with range (0.0-1.0]\n")]

/-- Lines 52-53: the threshold log line. -/
def thresholdLog (threshold : Double) : List Event :=
  [.cerr (.lit "; User specified similarity threshold: "),
   .cerr (.dbl threshold),
   .cerr .endl]

/-- Line 63: the error report of a failed run. -/
def errorReport (message : String) : List Event :=
  [.cerr (.lit "ERROR: "), .getErrorMessage, .cerr (.msg message), .cerr (.lit "\n")]

/-- Lines 66-70: the three statistics lines. -/
def statisticsReport (similarPairs candidates intersections : Nat) : List Event :=
  [.cerr (.lit "; Found "), .similarPairsCount, .cerr (.count similarPairs),
   .cerr (.lit " similar pairs.\n"),
   .cerr (.lit "; Candidates considered: "), .candidatesConsidered,
   .cerr (.count candidates),
   .cerr (.lit "\n"),
   .cerr (.lit "; Vector intersections performed: "), .intersectionsPerformed,
   .cerr (.count intersections),
   .cerr (.lit "\n")]

/-- Lines 73-76: the second call of `time` and the running-time line; the difference of
the two `time_t` values is a 64-bit subtraction. -/
def timeReport (startTime endTime : Int) : List Event :=
  [.time,
   .cerr (.lit "; Total running time: "), .cerr (.secs (lsub endTime startTime)),
   .cerr (.lit " seconds"), .cerr .endl]

/-- The function `main` of `main.cc`. `argc` is the length of `argv`. -/
def main {DataSourceIterator AllPairs : Type} (w : World DataSourceIterator AllPairs)
    (argv : List String) : Run :=
  let start : List Event := [.time]
  if argv.length ≠ 3 then
    ⟨1, start ++ usageError⟩
  else
    let threshold := w.strtod (argv.getD 1 "")
    if threshold.le (.finite 0) || threshold.gt (.finite 1) then
      ⟨2, start ++ thresholdError⟩
    else
      let logged := start ++ thresholdLog threshold
      match w.Get (argv.getD 2 "") with
      | none => ⟨3, logged ++ [.get (argv.getD 2 "")]⟩
      | some data =>
        let maxFeatureId := max_feature_id_4gb
        let maxFeaturesInRam := max_features_in_ram_4gb w.sizeofVector w.sizeofU32
        let called := logged ++ [.get (argv.getD 2 ""),
          .findAllSimilarPairs threshold maxFeatureId maxFeaturesInRam]
        match w.FindAllSimilarPairs w.newAllPairs threshold data maxFeatureId maxFeaturesInRam with
        | (false, _, data) => ⟨4, called ++ errorReport (w.GetErrorMessage data)⟩
        | (true, ap, _) =>
          ⟨0, called
              ++ statisticsReport (w.SimilarPairsCount ap) (w.CandidatesConsidered ap)
                  (w.IntersectionsPerformed ap)
              ++ timeReport w.startTime w.endTime⟩

/-! ## The text `main` writes to `std::cerr` -/

/-- One unit of the text on `std::cerr`: a character, or a formatted number, which
contains no line break. -/
inductive Atom where
  | char (c : Char)
  /-- A formatted `double`. -/
  | dbl (d : Double)
  /-- A formatted statistics counter. -/
  | count (n : Nat)
  /-- A formatted difference of two `time_t` values. -/
  | secs (z : Int)
  deriving DecidableEq

/-- The atoms of a text. -/
def txt (s : String) : List Atom := s.data.map Atom.char

/-- The line break. -/
def newline : Atom := .char (Char.ofNat 10)

/-- What one insertion appends to the stream. -/
def Piece.atoms : Piece → List Atom
  | .lit s => txt s
  | .dbl d => [.dbl d]
  | .count n => [.count n]
  | .secs z => [.secs z]
  | .msg s => txt s
  | .endl => [newline]

/-- The text on `std::cerr` after a trace. -/
def stderrOf : List Event → List Atom
  | [] => []
  | .cerr p :: rest => p.atoms ++ stderrOf rest
  | _ :: rest => stderrOf rest

/-- The lines of a text, each without its line break; a last line that is not
terminated counts as a line. -/
def logLines : List Atom → List (List Atom)
  | [] => []
  | a :: rest =>
    if a = newline then [] :: logLines rest
    else
      match logLines rest with
      | [] => [[a]]
      | line :: more => (a :: line) :: more

/-- The atom is a formatted statistics counter or a formatted running time. -/
def Atom.isStatistic : Atom → Bool
  | .count _ => true
  | .secs _ => true
  | _ => false

/-- The line of line 43. -/
def usageLine : List Atom := txt "ERROR: Usage is: ./ap <sim_threshold> <dataset_path>"

/-- The line of lines 48-49. -/
def thresholdErrorLine : List Atom :=
  txt "ERROR: The first argument should be a similarity threshhold with range (0.0-1.0]"

/-- The line of lines 52-53. -/
def thresholdLine (threshold : Double) : List Atom :=
  txt "; User specified similarity threshold: " ++ [.dbl threshold]

/-- The line of line 66. -/
def foundLine (similarPairs : Nat) : List Atom :=
  txt "; Found " ++ [.count similarPairs] ++ txt " similar pairs."

/-- The line of lines 67-68. -/
def candidatesLine (candidates : Nat) : List Atom :=
  txt "; Candidates considered: " ++ [.count candidates]

/-- The line of lines 69-70. -/
def intersectionsLine (intersections : Nat) : List Atom :=
  txt "; Vector intersections performed: " ++ [.count intersections]

/-- The line of lines 75-76. -/
def runningTimeLine (seconds : Int) : List Atom :=
  txt "; Total running time: " ++ [.secs seconds] ++ txt " seconds"

/-! ## Concrete worlds for the examples -/

/-- A world whose data source is a list of records and whose run succeeds or fails as
`ok` says; `strtod` knows the texts `1`, `2` and `nan` and returns `0` on any other. -/
def sampleWorld (ok : Bool) : World (List (List Nat)) (Nat × Nat × Nat) where
  sizeofVector := 24
  sizeofU32 := 4
  startTime := 1000
  endTime := 1007
  strtod := fun s =>
    if s = "1" then .finite 1
    else if s = "2" then .finite 2
    else if s = "nan" then .nan
    else .finite 0
  Get := fun path => if path = "data.bin" then some [[0, 1, 2], [0, 1, 2], [3, 4, 5]] else none
  newAllPairs := (0, 0, 0)
  FindAllSimilarPairs := fun _ _ data _ _ => (ok, (1, 1, 1), data)
  GetErrorMessage := fun _ => "read error"
  SimilarPairsCount := fun ap => ap.1
  CandidatesConsidered := fun ap => ap.2.1
  IntersectionsPerformed := fun ap => ap.2.2

/-! ## The five ways through `main` -/

/-- The trace of `main` up to and including the call of `FindAllSimilarPairs`. -/
def traceToRun (sizeofVector sizeofU32 : Nat) (threshold : Double) (path : String) :
    List Event :=
  [.time] ++ thresholdLog threshold
    ++ [.get path,
        .findAllSimilarPairs threshold max_feature_id_4gb
          (max_features_in_ram_4gb sizeofVector sizeofU32)]

section Paths

variable {DataSourceIterator AllPairs : Type} (w : World DataSourceIterator AllPairs)

theorem main_wrong_count (argv : List String) (h : argv.length ≠ 3) :
    main w argv = ⟨1, [.time] ++ usageError⟩ := by
  simp [main, h]

theorem main_rejected (prog a1 a2 : String)
    (ht : ((w.strtod a1).le (.finite 0) || (w.strtod a1).gt (.finite 1)) = true) :
    main w [prog, a1, a2] = ⟨2, [.time] ++ thresholdError⟩ := by
  simp only [Bool.or_eq_true] at ht
  simp [main, ht]

theorem main_not_opened (prog a1 a2 : String)
    (ht : ((w.strtod a1).le (.finite 0) || (w.strtod a1).gt (.finite 1)) = false)
    (hget : w.Get a2 = none) :
    main w [prog, a1, a2] = ⟨3, [.time] ++ thresholdLog (w.strtod a1) ++ [.get a2]⟩ := by
  simp only [Bool.or_eq_false_iff] at ht
  simp [main, ht, hget]

theorem main_run_failed (prog a1 a2 : String)
    (ht : ((w.strtod a1).le (.finite 0) || (w.strtod a1).gt (.finite 1)) = false)
    (data : DataSourceIterator) (hget : w.Get a2 = some data)
    (ap : AllPairs) (data1 : DataSourceIterator)
    (hrun : w.FindAllSimilarPairs w.newAllPairs (w.strtod a1) data
              max_feature_id_4gb (max_features_in_ram_4gb w.sizeofVector w.sizeofU32)
            = (false, ap, data1)) :
    main w [prog, a1, a2]
      = ⟨4, traceToRun w.sizeofVector w.sizeofU32 (w.strtod a1) a2
              ++ errorReport (w.GetErrorMessage data1)⟩ := by
  simp only [Bool.or_eq_false_iff] at ht
  simp [main, ht, hget, hrun, traceToRun]

theorem main_run_succeeded (prog a1 a2 : String)
    (ht : ((w.strtod a1).le (.finite 0) || (w.strtod a1).gt (.finite 1)) = false)
    (data : DataSourceIterator) (hget : w.Get a2 = some data)
    (ap : AllPairs) (data1 : DataSourceIterator)
    (hrun : w.FindAllSimilarPairs w.newAllPairs (w.strtod a1) data
              max_feature_id_4gb (max_features_in_ram_4gb w.sizeofVector w.sizeofU32)
            = (true, ap, data1)) :
    main w [prog, a1, a2]
      = ⟨0, traceToRun w.sizeofVector w.sizeofU32 (w.strtod a1) a2
              ++ statisticsReport (w.SimilarPairsCount ap) (w.CandidatesConsidered ap)
                  (w.IntersectionsPerformed ap)
              ++ timeReport w.startTime w.endTime⟩ := by
  simp only [Bool.or_eq_false_iff] at ht
  simp [main, ht, hget, hrun, traceToRun]

theorem length_three (argv : List String) (h : argv.length = 3) :
    ∃ prog a1 a2, argv = [prog, a1, a2] := by
  match argv, h with
  | [prog, a1, a2], _ => exact ⟨prog, a1, a2, rfl⟩

/-- Every run of `main` takes one of five paths, told apart by the exit code. -/
theorem main_paths (argv : List String) :
    (argv.length ≠ 3 ∧ main w argv = ⟨1, [.time] ++ usageError⟩)
    ∨ (∃ prog a1 a2, argv = [prog, a1, a2]
        ∧ ((w.strtod a1).le (.finite 0) || (w.strtod a1).gt (.finite 1)) = true
        ∧ main w argv = ⟨2, [.time] ++ thresholdError⟩)
    ∨ (∃ prog a1 a2, argv = [prog, a1, a2]
        ∧ ((w.strtod a1).le (.finite 0) || (w.strtod a1).gt (.finite 1)) = false
        ∧ w.Get a2 = none
        ∧ main w argv = ⟨3, [.time] ++ thresholdLog (w.strtod a1) ++ [.get a2]⟩)
    ∨ (∃ prog a1 a2 data ap data1, argv = [prog, a1, a2]
        ∧ ((w.strtod a1).le (.finite 0) || (w.strtod a1).gt (.finite 1)) = false
        ∧ w.Get a2 = some data
        ∧ w.FindAllSimilarPairs w.newAllPairs (w.strtod a1) data
              max_feature_id_4gb (max_features_in_ram_4gb w.sizeofVector w.sizeofU32)
            = (false, ap, data1)
        ∧ main w argv
            = ⟨4, traceToRun w.sizeofVector w.sizeofU32 (w.strtod a1) a2
                    ++ errorReport (w.GetErrorMessage data1)⟩)
    ∨ (∃ prog a1 a2 data ap data1, argv = [prog, a1, a2]
        ∧ ((w.strtod a1).le (.finite 0) || (w.strtod a1).gt (.finite 1)) = false
        ∧ w.Get a2 = some data
        ∧ w.FindAllSimilarPairs w.newAllPairs (w.strtod a1) data
              max_feature_id_4gb (max_features_in_ram_4gb w.sizeofVector w.sizeofU32)
            = (true, ap, data1)
        ∧ main w argv
            = ⟨0, traceToRun w.sizeofVector w.sizeofU32 (w.strtod a1) a2
                    ++ statisticsReport (w.SimilarPairsCount ap) (w.CandidatesConsidered ap)
                        (w.IntersectionsPerformed ap)
                    ++ timeReport w.startTime w.endTime⟩) := by
  by_cases h : argv.length = 3
  · obtain ⟨prog, a1, a2, rfl⟩ := length_three argv h
    right
    cases ht : ((w.strtod a1).le (.finite 0) || (w.strtod a1).gt (.finite 1))
    · right
      cases hget : w.Get a2 with
      | none => exact Or.inl ⟨prog, a1, a2, rfl, ht, hget, main_not_opened w prog a1 a2 ht hget⟩
      | some data =>
        right
        rcases hrun : w.FindAllSimilarPairs w.newAllPairs (w.strtod a1) data
              max_feature_id_4gb (max_features_in_ram_4gb w.sizeofVector w.sizeofU32)
          with ⟨ok, ap, data1⟩
        cases ok
        · exact Or.inl ⟨prog, a1, a2, data, ap, data1, rfl, ht, hget, hrun,
            main_run_failed w prog a1 a2 ht data hget ap data1 hrun⟩
        · exact Or.inr ⟨prog, a1, a2, data, ap, data1, rfl, ht, hget, hrun,
            main_run_succeeded w prog a1 a2 ht data hget ap data1 hrun⟩
    · exact Or.inl ⟨prog, a1, a2, rfl, ht, main_rejected w prog a1 a2 ht⟩
  · exact Or.inl ⟨h, main_wrong_count w argv h⟩

theorem stderrOf_append (l r : List Event) : stderrOf (l ++ r) = stderrOf l ++ stderrOf r := by
  induction l with
  | nil => rfl
  | cons e l ih => cases e <;> simp [stderrOf, ih]

theorem logLines_line (line rest : List Atom) (h : ∀ a ∈ line, a ≠ newline) :
    logLines (line ++ newline :: rest) = line :: logLines rest := by
  induction line with
  | nil => simp [logLines]
  | cons a line ih =>
    have ha : a ≠ newline := h a (by simp)
    have hl : ∀ b ∈ line, b ≠ newline := fun b hb => h b (by simp [hb])
    simp [logLines, ha, ih hl]

theorem thresholdLine_no_newline (d : Double) : ∀ a ∈ thresholdLine d, a ≠ newline := by
  intro a ha
  simp only [thresholdLine, List.mem_append, List.mem_singleton] at ha
  rcases ha with ha | rfl
  · revert a
    decide
  · simp [newline]

/-! ## The exit codes -/

/-- C3: `main` exits with code 1 exactly when the number of positional arguments is not
two (`argc != 3`), whatever the arguments and the outside world are; in particular a
wrong argument count never yields code 2, even when the first argument would be
rejected as a threshold. -/
theorem exit_one_iff_wrong_argument_count (argv : List String) :
    ((main w argv).exitCode = 1 ↔ argv.length ≠ 3)
    ∧ (argv.length ≠ 3 → (main w argv).exitCode ≠ 2) := by
  rcases main_paths w argv with ⟨h, hm⟩ | ⟨_, _, _, rfl, _, hm⟩ | ⟨_, _, _, rfl, _, _, hm⟩
    | ⟨_, _, _, _, _, _, rfl, _, _, _, hm⟩ | ⟨_, _, _, _, _, _, rfl, _, _, _, hm⟩ <;>
    simp_all

/-- C5: when the argument count is right and the threshold passes the range check,
`main` exits with code 3 exactly when `DataSourceIterator::Get` returns null for the
second argument, and then `FindAllSimilarPairs` is not called. -/
theorem exit_three_iff_not_opened (argv : List String) (hargc : argv.length = 3)
    (ht : ((w.strtod (argv.getD 1 "")).le (.finite 0)
            || (w.strtod (argv.getD 1 "")).gt (.finite 1)) = false) :
    ((main w argv).exitCode = 3 ↔ w.Get (argv.getD 2 "") = none)
    ∧ (w.Get (argv.getD 2 "") = none →
        ∀ t a b, Event.findAllSimilarPairs t a b ∉ (main w argv).trace) := by
  obtain ⟨prog, a1, a2, rfl⟩ := length_three argv hargc
  simp only [List.getD_cons_succ, List.getD_cons_zero] at ht ⊢
  rcases main_paths w [prog, a1, a2] with ⟨h, _⟩ | ⟨_, _, _, he, ht2, _⟩ | ⟨_, _, _, he, _, hg, hm⟩
    | ⟨_, _, _, _, _, _, he, _, hg, _, hm⟩ | ⟨_, _, _, _, _, _, he, _, hg, _, hm⟩
  · simp at h
  · simp only [List.cons.injEq, and_true] at he
    obtain ⟨-, rfl, rfl⟩ := he
    simp [ht] at ht2
  all_goals
    simp only [List.cons.injEq, and_true] at he
    obtain ⟨-, rfl, rfl⟩ := he
    simp [hm, hg, thresholdLog]

/-- C4: when both argument checks pass and the data source opens, `main` exits with
code 4 exactly when `FindAllSimilarPairs` returns false and with code 0 exactly when it
returns true; on the false branch the last thing `main` does is to call
`GetErrorMessage` on the data source and to write `ERROR: ` followed by that message and
a line break. -/
theorem exit_code_follows_run_result (argv : List String) (hargc : argv.length = 3)
    (ht : ((w.strtod (argv.getD 1 "")).le (.finite 0)
            || (w.strtod (argv.getD 1 "")).gt (.finite 1)) = false)
    (data : DataSourceIterator) (hget : w.Get (argv.getD 2 "") = some data) :
    ((main w argv).exitCode = 4 ↔
        (w.FindAllSimilarPairs w.newAllPairs (w.strtod (argv.getD 1 "")) data
          max_feature_id_4gb (max_features_in_ram_4gb w.sizeofVector w.sizeofU32)).1 = false)
    ∧ ((main w argv).exitCode = 0 ↔
        (w.FindAllSimilarPairs w.newAllPairs (w.strtod (argv.getD 1 "")) data
          max_feature_id_4gb (max_features_in_ram_4gb w.sizeofVector w.sizeofU32)).1 = true)
    ∧ ((w.FindAllSimilarPairs w.newAllPairs (w.strtod (argv.getD 1 "")) data
          max_feature_id_4gb (max_features_in_ram_4gb w.sizeofVector w.sizeofU32)).1 = false →
        (main w argv).trace
          = traceToRun w.sizeofVector w.sizeofU32 (w.strtod (argv.getD 1 "")) (argv.getD 2 "")
              ++ errorReport (w.GetErrorMessage
                  (w.FindAllSimilarPairs w.newAllPairs (w.strtod (argv.getD 1 "")) data
                    max_feature_id_4gb
                    (max_features_in_ram_4gb w.sizeofVector w.sizeofU32)).2.2)
        ∧ stderrOf (main w argv).trace
          = thresholdLine (w.strtod (argv.getD 1 "")) ++ [newline]
              ++ (txt "ERROR: "
                  ++ txt (w.GetErrorMessage
                      (w.FindAllSimilarPairs w.newAllPairs (w.strtod (argv.getD 1 "")) data
                        max_feature_id_4gb
                        (max_features_in_ram_4gb w.sizeofVector w.sizeofU32)).2.2)
                  ++ [newline])) := by
  obtain ⟨prog, a1, a2, rfl⟩ := length_three argv hargc
  simp only [List.getD_cons_succ, List.getD_cons_zero] at ht hget ⊢
  rcases hrun : w.FindAllSimilarPairs w.newAllPairs (w.strtod a1) data
      max_feature_id_4gb (max_features_in_ram_4gb w.sizeofVector w.sizeofU32)
    with ⟨ok, ap, data1⟩
  cases ok
  · rw [main_run_failed w prog a1 a2 ht data hget ap data1 hrun]
    have hnl : txt "\n" = [newline] := by decide
    simp [traceToRun, thresholdLog, errorReport, stderrOf, Piece.atoms, thresholdLine, hnl]
  · rw [main_run_succeeded w prog a1 a2 ht data hget ap data1 hrun]
    simp

/-- C6: a run of `main` that ends with exit code 1 or 2 consists of the first call of
`time` and insertions into `std::cerr` only: the data source is not opened,
`FindAllSimilarPairs` is not called, no part of the threshold log line is written, and
the text on `std::cerr` is the single line of the failed check (the usage line for
code 1, the threshold-range line for code 2). -/
theorem configuration_error_before_any_work (argv : List String)
    (h : (main w argv).exitCode = 1 ∨ (main w argv).exitCode = 2) :
    (∀ path, Event.get path ∉ (main w argv).trace)
    ∧ (∀ t a b, Event.findAllSimilarPairs t a b ∉ (main w argv).trace)
    ∧ (∀ t, ∀ e ∈ thresholdLog t, e ∉ (main w argv).trace)
    ∧ (∀ e ∈ (main w argv).trace, e = Event.time ∨ ∃ s, e = Event.cerr (.lit s))
    ∧ logLines (stderrOf (main w argv).trace)
        = [if (main w argv).exitCode = 1 then usageLine else thresholdErrorLine]
    ∧ stderrOf (main w argv).trace
        = (if (main w argv).exitCode = 1 then usageLine else thresholdErrorLine)
            ++ [newline] := by
  rcases main_paths w argv with ⟨_, hm⟩ | ⟨_, _, _, _, _, hm⟩ | ⟨_, _, _, _, _, _, hm⟩
    | ⟨_, _, _, _, _, _, _, _, _, _, hm⟩ | ⟨_, _, _, _, _, _, _, _, _, _, hm⟩
  · rw [hm]
    refine ⟨by simp [usageError], by simp [usageError], ?_, by simp [usageError], ?_, ?_⟩
    · intro t e he
      simp only [thresholdLog, List.mem_cons, List.mem_singleton, List.not_mem_nil,
        or_false] at he
      rcases he with rfl | rfl | rfl <;> simp [usageError]
    · decide
    · decide
  · rw [hm]
    refine ⟨by simp [thresholdError], by simp [thresholdError], ?_,
      by simp [thresholdError], ?_, ?_⟩
    · intro t e he
      simp only [thresholdLog, List.mem_cons, List.mem_singleton, List.not_mem_nil,
        or_false] at he
      rcases he with rfl | rfl | rfl <;> simp [thresholdError]
    · decide
    · decide
  all_goals
    rw [hm] at h
    simp at h

end Paths

section Limits

variable {DataSourceIterator AllPairs : Type} (w : World DataSourceIterator AllPairs)

/-- Whenever `main` calls `FindAllSimilarPairs`, the two limits it passes are
`max_feature_id_4gb` and `max_features_in_ram_4gb`. -/
theorem main_passes_limits (argv : List String) (t : Double) (a b : Int)
    (hcall : Event.findAllSimilarPairs t a b ∈ (main w argv).trace) :
    a = max_feature_id_4gb ∧ b = max_features_in_ram_4gb w.sizeofVector w.sizeofU32 := by
  rcases main_paths w argv with ⟨_, hm⟩ | ⟨_, _, _, _, _, hm⟩ | ⟨_, _, _, _, _, _, hm⟩
    | ⟨_, _, _, _, _, _, _, _, _, _, hm⟩ | ⟨_, _, _, _, _, _, _, _, _, _, hm⟩ <;>
    rw [hm] at hcall <;>
    simp [usageError, thresholdError, thresholdLog, traceToRun, errorReport,
      statisticsReport, timeReport] at hcall
  · exact ⟨hcall.2.1, hcall.2.2⟩
  · exact ⟨hcall.2.1, hcall.2.2⟩

/-- C7: with `sizeof(std::vector<uint32_t>) = 24` and `sizeof(uint32_t) = 4`, the two
limits `a` and `b` that `main` passes to `FindAllSimilarPairs` are `3072241` and
`max_features_in_ram_4gb`; the overhead is what the 1 GiB configuration left
unallocated (`overhead + 24*600000 + 2*4*120000000 = 4294967296 / 4`), and
`24*a + 2*4*b + 4*overhead` stays within the budget of `4294967296` bytes (4 GiB),
falling short of it by the remainder of the division by 8, which is less than 8. -/
theorem limits_within_four_gib_budget (argv : List String) (t : Double) (a b : Int)
    (hvector : w.sizeofVector = 24) (hu32 : w.sizeofU32 = 4)
    (hcall : Event.findAllSimilarPairs t a b ∈ (main w argv).trace) :
    max_memory_usage = 4294967296
    ∧ max_memory_usage = 4 * 2 ^ 30
    ∧ overhead 24 4 + 24 * 600000 + 2 * 4 * 120000000 = 4294967296 / 4
    ∧ a = 3072241
    ∧ b = max_features_in_ram_4gb 24 4
    ∧ 24 * a + 2 * 4 * b + 4 * overhead 24 4 ≤ 4294967296
    ∧ 4294967296 - (24 * a + 2 * 4 * b + 4 * overhead 24 4)
        = (4294967296 - 24 * a - 4 * overhead 24 4) % 8
    ∧ 4294967296 - (24 * a + 2 * 4 * b + 4 * overhead 24 4) < 8 := by
  obtain ⟨ha, hb⟩ := main_passes_limits w argv t a b hcall
  rw [hvector, hu32] at hb
  subst ha hb
  decide

/-- C9: with `sizeof(std::vector<uint32_t>) = 24` and `sizeof(uint32_t) = 4`, the
64-bit evaluation of the budget computation yields `overhead = 99341824 > 0` and
`max_features_in_ram_4gb = 477983277` with an exact division by 8; every intermediate
value the machine computes equals its value over the unbounded integers and lies in
`[0, 2^63)`, so nothing wraps or goes negative; and the two limits `a` and `b` that
`main` passes to `FindAllSimilarPairs` are `3072241` and `477983277`, positive and below
`2^32`, hence unchanged by a conversion to a 32-bit unsigned parameter. -/
theorem budget_computation_does_not_wrap (argv : List String) (t : Double) (a b : Int)
    (hvector : w.sizeofVector = 24) (hu32 : w.sizeofU32 = 4)
    (hcall : Event.findAllSimilarPairs t a b ∈ (main w argv).trace) :
    overhead 24 4 = 99341824
    ∧ 0 < overhead 24 4
    ∧ max_features_in_ram_4gb 24 4 = 477983277
    ∧ (max_memory_usage - 24 * max_feature_id_4gb - overheadExact 24 4 * 4) % (2 * 4) = 0
    ∧ budgetIntermediatesMachine 24 4 = budgetIntermediates 24 4
    ∧ overhead 24 4 = overheadExact 24 4
    ∧ max_features_in_ram_4gb 24 4 = maxFeaturesInRamExact 24 4
    ∧ (∀ v ∈ budgetIntermediates 24 4, 0 ≤ v ∧ v < 2 ^ 63)
    ∧ a = 3072241 ∧ b = 477983277
    ∧ 0 < a ∧ a < 2 ^ 32 ∧ 0 < b ∧ b < 2 ^ 32
    ∧ a % 2 ^ 32 = a ∧ b % 2 ^ 32 = b := by
  obtain ⟨ha, hb⟩ := main_passes_limits w argv t a b hcall
  rw [hvector, hu32] at hb
  subst ha hb
  decide

end Limits

/-- Witness of C7: the successful sample run calls `FindAllSimilarPairs` with limits
inside the budget. -/
theorem limits_within_four_gib_budget_witness :
    Event.findAllSimilarPairs (.finite 1) 3072241 477983277
        ∈ (main (sampleWorld true) ["./ap", "1", "data.bin"]).trace
    ∧ 24 * 3072241 + 2 * 4 * 477983277 + 4 * overhead 24 4 ≤ (4294967296 : Int) :=
  ⟨by decide,
   (limits_within_four_gib_budget (sampleWorld true) ["./ap", "1", "data.bin"] (.finite 1)
      3072241 477983277 rfl rfl (by decide)).2.2.2.2.2.1⟩

/-- Witness of C9: the limits of the successful sample run survive a conversion to 32
bits. -/
theorem budget_computation_does_not_wrap_witness :
    Event.findAllSimilarPairs (.finite 1) 3072241 477983277
        ∈ (main (sampleWorld false) ["./ap", "1", "data.bin"]).trace
    ∧ (3072241 : Int) % 2 ^ 32 = 3072241 ∧ (477983277 : Int) % 2 ^ 32 = 477983277 :=
  ⟨by decide,
   (budget_computation_does_not_wrap (sampleWorld false) ["./ap", "1", "data.bin"]
      (.finite 1) 3072241 477983277 rfl rfl (by decide)).2.2.2.2.2.2.2.2.2.2.2.2.2.2⟩

section Threshold

variable {DataSourceIterator AllPairs : Type} (w : World DataSourceIterator AllPairs)

/-- The range check of line 47 rejects exactly the doubles that are not a NaN and
lie outside `(0, 1]`. -/
theorem rejected_iff (d : Double) :
    (d.le (.finite 0) || d.gt (.finite 1)) = true ↔ d ≠ .nan ∧ ¬ d.inUnitInterval := by
  cases d with
  | nan => simp [Double.le, Double.gt]
  | inf negative => cases negative <;> simp [Double.le, Double.gt, Double.inUnitInterval]
  | finite q =>
    simp only [Double.le, Double.gt, Double.inUnitInterval, Bool.or_eq_true,
      decide_eq_true_eq, ne_eq, reduceCtorEq, not_false_eq_true, true_and, not_and, not_le]
    constructor
    · rintro (h | h)
      · intro h0
        exact absurd h0 (not_lt.mpr h)
      · intro _
        exact h
    · intro h
      by_cases h0 : 0 < q
      · exact Or.inr (h h0)
      · exact Or.inl (not_lt.mp h0)

/-- With the right argument count and a parsed threshold that is not a NaN, `main`
exits with code 2 exactly when the parsed threshold is outside `(0, 1]`. -/
theorem exit_two_iff_outside_unit_interval (argv : List String) (hargc : argv.length = 3)
    (hnan : w.strtod (argv.getD 1 "") ≠ .nan) :
    (main w argv).exitCode = 2 ↔ ¬ (w.strtod (argv.getD 1 "")).inUnitInterval := by
  obtain ⟨prog, a1, a2, rfl⟩ := length_three argv hargc
  simp only [List.getD_cons_succ, List.getD_cons_zero] at hnan ⊢
  have hr := rejected_iff (w.strtod a1)
  rcases main_paths w [prog, a1, a2] with ⟨h, _⟩ | ⟨_, _, _, he, ht, hm⟩
    | ⟨_, _, _, he, ht, _, hm⟩ | ⟨_, _, _, _, _, _, he, ht, _, _, hm⟩
    | ⟨_, _, _, _, _, _, he, ht, _, _, hm⟩
  · simp at h
  · simp only [List.cons.injEq, and_true] at he
    obtain ⟨-, rfl, rfl⟩ := he
    simp only [hm, true_iff]
    exact (hr.mp ht).2
  all_goals
    simp only [List.cons.injEq, and_true] at he
    obtain ⟨-, rfl, rfl⟩ := he
    have hin : (w.strtod a1).inUnitInterval := by
      by_contra hc
      have := hr.mpr ⟨hnan, hc⟩
      rw [ht] at this
      exact Bool.false_ne_true this
    simp [hm, hin]

/-- A threshold that parses as a NaN passes the range check of line 47: `main` does not
exit with code 2 but writes the threshold log line and goes on to open the data
source. -/
theorem nan_passes_range_check (prog a1 a2 : String) (hnan : w.strtod a1 = .nan) :
    (main w [prog, a1, a2]).exitCode ≠ 2
    ∧ ([Event.time] ++ thresholdLog .nan ++ [Event.get a2]) <+: (main w [prog, a1, a2]).trace := by
  have ht : ((w.strtod a1).le (.finite 0) || (w.strtod a1).gt (.finite 1)) = false := by
    simp [hnan, Double.le, Double.gt]
  rcases main_paths w [prog, a1, a2] with ⟨h, _⟩ | ⟨_, _, _, he, ht2, _⟩
    | ⟨_, _, _, he, _, _, hm⟩ | ⟨_, _, _, _, _, _, he, _, _, _, hm⟩
    | ⟨_, _, _, _, _, _, he, _, _, _, hm⟩
  · simp at h
  · simp only [List.cons.injEq, and_true] at he
    obtain ⟨-, rfl, rfl⟩ := he
    simp [ht] at ht2
  all_goals
    simp only [List.cons.injEq, and_true] at he
    obtain ⟨-, rfl, rfl⟩ := he
    simp [hm, hnan, traceToRun, thresholdLog, List.prefix_iff_eq_append]

end Threshold

/-- C2, at the invocation `./ap nan data.bin`: the first argument parses as a NaN,
which is not a value of `(0, 1]`, and still `main` does not exit with code 2: it calls
`FindAllSimilarPairs` with the NaN as threshold and exits with code 0. -/
theorem nan_threshold_is_accepted :
    (sampleWorld true).strtod "nan" = .nan
    ∧ ¬ ((sampleWorld true).strtod "nan").inUnitInterval
    ∧ (main (sampleWorld true) ["./ap", "nan", "data.bin"]).exitCode ≠ 2
    ∧ (main (sampleWorld true) ["./ap", "nan", "data.bin"]).exitCode = 0
    ∧ Event.findAllSimilarPairs .nan 3072241 477983277
        ∈ (main (sampleWorld true) ["./ap", "nan", "data.bin"]).trace := by
  decide

/-! ## The log -/

theorem foundLine_no_newline (n : Nat) : ∀ a ∈ foundLine n, a ≠ newline := by
  intro a ha
  simp only [foundLine, List.mem_append, List.mem_singleton] at ha
  rcases ha with (ha | rfl) | ha
  · revert a
    decide
  · simp [newline]
  · revert a
    decide

theorem candidatesLine_no_newline (n : Nat) : ∀ a ∈ candidatesLine n, a ≠ newline := by
  intro a ha
  simp only [candidatesLine, List.mem_append, List.mem_singleton] at ha
  rcases ha with ha | rfl
  · revert a
    decide
  · simp [newline]

theorem intersectionsLine_no_newline (n : Nat) : ∀ a ∈ intersectionsLine n, a ≠ newline := by
  intro a ha
  simp only [intersectionsLine, List.mem_append, List.mem_singleton] at ha
  rcases ha with ha | rfl
  · revert a
    decide
  · simp [newline]

theorem runningTimeLine_no_newline (z : Int) : ∀ a ∈ runningTimeLine z, a ≠ newline := by
  intro a ha
  simp only [runningTimeLine, List.mem_append, List.mem_singleton] at ha
  rcases ha with (ha | rfl) | ha
  · revert a
    decide
  · simp [newline]
  · revert a
    decide

/-- The text of the three statistics lines. -/
theorem stderrOf_statisticsReport (sp cc ip : Nat) :
    stderrOf (statisticsReport sp cc ip)
      = foundLine sp ++ newline :: (candidatesLine cc ++ newline ::
          (intersectionsLine ip ++ [newline])) := by
  have h1 : txt " similar pairs.\n" = txt " similar pairs." ++ [newline] := by decide
  have h2 : txt "\n" = [newline] := by decide
  simp [statisticsReport, stderrOf, Piece.atoms, foundLine, candidatesLine,
    intersectionsLine, h1, h2]

/-- The text of the running-time line. -/
theorem stderrOf_timeReport (s e : Int) :
    stderrOf (timeReport s e) = runningTimeLine (lsub e s) ++ [newline] := by
  simp [timeReport, stderrOf, Piece.atoms, runningTimeLine]

/-- The text `main` has written when it calls `FindAllSimilarPairs`. -/
theorem stderrOf_traceToRun (v u : Nat) (t : Double) (path : String) :
    stderrOf (traceToRun v u t path) = thresholdLine t ++ [newline] := by
  simp [traceToRun, thresholdLog, stderrOf, Piece.atoms, thresholdLine]

/-- The lines of the log of a successful run. -/
theorem logLines_success (v u : Nat) (t : Double) (path : String) (sp cc ip : Nat)
    (s e : Int) :
    logLines (stderrOf (traceToRun v u t path ++ statisticsReport sp cc ip ++ timeReport s e))
      = [thresholdLine t, foundLine sp, candidatesLine cc, intersectionsLine ip,
          runningTimeLine (lsub e s)] := by
  rw [stderrOf_append, stderrOf_append, stderrOf_traceToRun, stderrOf_statisticsReport,
    stderrOf_timeReport]
  simp only [List.append_assoc, List.singleton_append, List.cons_append, List.nil_append]
  rw [logLines_line _ _ (thresholdLine_no_newline t),
    logLines_line _ _ (foundLine_no_newline sp),
    logLines_line _ _ (candidatesLine_no_newline cc),
    logLines_line _ _ (intersectionsLine_no_newline ip),
    logLines_line _ _ (runningTimeLine_no_newline (lsub e s))]
  rfl

/-- Every atom of a line of a text is an atom of the text. -/
theorem mem_of_mem_logLines (l : List Atom) :
    ∀ line ∈ logLines l, ∀ a ∈ line, a ∈ l := by
  induction l with
  | nil => simp [logLines]
  | cons b rest ih =>
    intro line hline a ha
    by_cases hb : b = newline
    · simp only [logLines, hb, if_true, List.mem_cons] at hline
      rcases hline with rfl | hline
      · simp at ha
      · exact List.mem_cons_of_mem _ (ih line hline a ha)
    · simp only [logLines, hb, if_false] at hline
      cases hrest : logLines rest with
      | nil =>
        rw [hrest] at hline
        simp only [List.mem_singleton] at hline
        subst hline
        simp only [List.mem_singleton] at ha
        simp [ha]
      | cons first more =>
        rw [hrest] at hline ih
        simp only [List.mem_cons] at hline
        rcases hline with rfl | hline
        · simp only [List.mem_cons] at ha
          rcases ha with rfl | ha
          · simp
          · exact List.mem_cons_of_mem _ (ih first (by simp) a ha)
        · exact List.mem_cons_of_mem _ (ih line (by simp [hline]) a ha)

theorem txt_not_statistic (s : String) : ∀ a ∈ txt s, a.isStatistic = false := by
  intro a ha
  simp only [txt, List.mem_map] at ha
  obtain ⟨c, -, rfl⟩ := ha
  rfl

/-- Each of the four closing lines contains a formatted counter or running time. -/
theorem closing_line_has_statistic (sp cc ip : Nat) (dt : Int) :
    ∀ line ∈ [foundLine sp, candidatesLine cc, intersectionsLine ip, runningTimeLine dt],
      ∃ a ∈ line, a.isStatistic = true := by
  intro line hline
  simp only [List.mem_cons, List.mem_singleton, List.not_mem_nil, or_false] at hline
  rcases hline with rfl | rfl | rfl | rfl
  · exact ⟨.count sp, by simp [foundLine], rfl⟩
  · exact ⟨.count cc, by simp [candidatesLine], rfl⟩
  · exact ⟨.count ip, by simp [intersectionsLine], rfl⟩
  · exact ⟨.secs dt, by simp [runningTimeLine], rfl⟩

theorem thresholdLine_not_statistic (t : Double) :
    ∀ a ∈ thresholdLine t ++ [newline], a.isStatistic = false := by
  intro a ha
  simp only [thresholdLine, List.mem_append, List.mem_singleton] at ha
  rcases ha with (ha | rfl) | rfl
  · exact txt_not_statistic _ a ha
  · rfl
  · rfl

/-- The text of a run that could not open its data source. -/
theorem stderrOf_not_opened (t : Double) (path : String) :
    stderrOf ([Event.time] ++ thresholdLog t ++ [Event.get path])
      = thresholdLine t ++ [newline] := by
  simp [thresholdLog, stderrOf, Piece.atoms, thresholdLine]

/-- The text of the error report. -/
theorem stderrOf_errorReport (message : String) :
    stderrOf (errorReport message) = txt "ERROR: " ++ txt message ++ [newline] := by
  have h : txt "\n" = [newline] := by decide
  simp [errorReport, stderrOf, Piece.atoms, h]

section Log

variable {DataSourceIterator AllPairs : Type} (w : World DataSourceIterator AllPairs)

/-- A run that does not end with exit code 0 writes no counter and no running time and
calls no statistics accessor. -/
theorem no_statistic_unless_success (argv : List String) (h : (main w argv).exitCode ≠ 0) :
    (∀ a ∈ stderrOf (main w argv).trace, a.isStatistic = false)
    ∧ Event.similarPairsCount ∉ (main w argv).trace
    ∧ Event.candidatesConsidered ∉ (main w argv).trace
    ∧ Event.intersectionsPerformed ∉ (main w argv).trace := by
  rcases main_paths w argv with ⟨_, hm⟩ | ⟨_, _, _, _, _, hm⟩ | ⟨_, _, _, _, _, _, hm⟩
    | ⟨_, _, _, _, _, _, _, _, _, _, hm⟩ | ⟨_, _, _, _, _, _, _, _, _, _, hm⟩
  · rw [hm]
    decide
  · rw [hm]
    decide
  · rw [hm]
    refine ⟨?_, by simp [thresholdLog], by simp [thresholdLog], by simp [thresholdLog]⟩
    intro a ha
    rw [stderrOf_not_opened] at ha
    exact thresholdLine_not_statistic _ a ha
  · rw [hm]
    refine ⟨?_, by simp [traceToRun, thresholdLog, errorReport],
      by simp [traceToRun, thresholdLog, errorReport],
      by simp [traceToRun, thresholdLog, errorReport]⟩
    intro a ha
    rw [stderrOf_append, stderrOf_traceToRun, stderrOf_errorReport] at ha
    simp only [List.mem_append, List.mem_singleton] at ha
    rcases ha with ha | (ha | ha) | rfl
    · exact thresholdLine_not_statistic _ a (by simpa using ha)
    · exact txt_not_statistic _ a ha
    · exact txt_not_statistic _ a ha
    · rfl
  · rw [hm] at h
    simp at h

/-- The trace and the log of a run that ends with exit code 0. -/
theorem successful_run (argv : List String) (h : (main w argv).exitCode = 0) :
    ∃ data ap data1,
      w.Get (argv.getD 2 "") = some data
      ∧ w.FindAllSimilarPairs w.newAllPairs (w.strtod (argv.getD 1 "")) data
            max_feature_id_4gb (max_features_in_ram_4gb w.sizeofVector w.sizeofU32)
          = (true, ap, data1)
      ∧ (main w argv).trace
          = [Event.time] ++ thresholdLog (w.strtod (argv.getD 1 ""))
              ++ [Event.get (argv.getD 2 ""),
                  Event.findAllSimilarPairs (w.strtod (argv.getD 1 "")) max_feature_id_4gb
                    (max_features_in_ram_4gb w.sizeofVector w.sizeofU32)]
              ++ statisticsReport (w.SimilarPairsCount ap) (w.CandidatesConsidered ap)
                  (w.IntersectionsPerformed ap)
              ++ timeReport w.startTime w.endTime
      ∧ logLines (stderrOf (main w argv).trace)
          = [thresholdLine (w.strtod (argv.getD 1 ""))]
              ++ [foundLine (w.SimilarPairsCount ap),
                  candidatesLine (w.CandidatesConsidered ap),
                  intersectionsLine (w.IntersectionsPerformed ap),
                  runningTimeLine (lsub w.endTime w.startTime)] := by
  rcases main_paths w argv with ⟨_, hm⟩ | ⟨_, _, _, _, _, hm⟩ | ⟨_, _, _, _, _, _, hm⟩
    | ⟨_, _, _, _, _, _, _, _, _, _, hm⟩ | ⟨prog, a1, a2, data, ap, data1, rfl, _, hg, hr, hm⟩
  · rw [hm] at h
    simp at h
  · rw [hm] at h
    simp at h
  · rw [hm] at h
    simp at h
  · rw [hm] at h
    simp at h
  · refine ⟨data, ap, data1, by simpa using hg, by simpa using hr, ?_, ?_⟩
    · rw [hm]
      simp [traceToRun]
    · rw [hm, logLines_success]
      simp

/-- C8, as the code has it: in a run of `main` that ends with exit code 0 the log stream
receives one line with the user-specified threshold at the start, before the data source
is opened, and exactly four lines at the end, which report, in this order, the similar
pair count, the candidates considered, the intersections performed and the wall-clock
seconds (the 64-bit difference of the two `time_t` values). -/
theorem success_log_lines (argv : List String) (h : (main w argv).exitCode = 0) :
    ∃ data ap data1,
      w.Get (argv.getD 2 "") = some data
      ∧ w.FindAllSimilarPairs w.newAllPairs (w.strtod (argv.getD 1 "")) data
            max_feature_id_4gb (max_features_in_ram_4gb w.sizeofVector w.sizeofU32)
          = (true, ap, data1)
      ∧ (main w argv).trace
          = [Event.time] ++ thresholdLog (w.strtod (argv.getD 1 ""))
              ++ [Event.get (argv.getD 2 ""),
                  Event.findAllSimilarPairs (w.strtod (argv.getD 1 "")) max_feature_id_4gb
                    (max_features_in_ram_4gb w.sizeofVector w.sizeofU32)]
              ++ statisticsReport (w.SimilarPairsCount ap) (w.CandidatesConsidered ap)
                  (w.IntersectionsPerformed ap)
              ++ timeReport w.startTime w.endTime
      ∧ logLines (stderrOf (main w argv).trace)
          = [thresholdLine (w.strtod (argv.getD 1 ""))]
              ++ [foundLine (w.SimilarPairsCount ap),
                  candidatesLine (w.CandidatesConsidered ap),
                  intersectionsLine (w.IntersectionsPerformed ap),
                  runningTimeLine (lsub w.endTime w.startTime)] :=
  successful_run w argv h

/-- C10: the four closing lines (three statistics lines and the running-time line) end
the log exactly when `main` exits with code 0; a run that ends with exit code 3 or 4
has written the threshold log line first, writes none of the four closing lines, whatever
the numbers in them, and never calls `SimilarPairsCount`, `CandidatesConsidered` or
`IntersectionsPerformed`. -/
theorem statistics_reported_only_after_success (argv : List String) :
    ((main w argv).exitCode = 0 ↔
        ∃ sp cc ip dt,
          [foundLine sp, candidatesLine cc, intersectionsLine ip, runningTimeLine dt]
            <:+ logLines (stderrOf (main w argv).trace))
    ∧ ((main w argv).exitCode = 3 ∨ (main w argv).exitCode = 4 →
        ([Event.time] ++ thresholdLog (w.strtod (argv.getD 1 ""))) <+: (main w argv).trace
        ∧ (logLines (stderrOf (main w argv).trace)).head?
            = some (thresholdLine (w.strtod (argv.getD 1 "")))
        ∧ (∀ sp cc ip dt,
            ∀ line ∈ [foundLine sp, candidatesLine cc, intersectionsLine ip,
                        runningTimeLine dt],
              line ∉ logLines (stderrOf (main w argv).trace))
        ∧ Event.similarPairsCount ∉ (main w argv).trace
        ∧ Event.candidatesConsidered ∉ (main w argv).trace
        ∧ Event.intersectionsPerformed ∉ (main w argv).trace) := by
  have absent : (main w argv).exitCode ≠ 0 → ∀ sp cc ip dt,
      ∀ line ∈ [foundLine sp, candidatesLine cc, intersectionsLine ip, runningTimeLine dt],
        line ∉ logLines (stderrOf (main w argv).trace) := by
    intro hne sp cc ip dt line hline hmem
    obtain ⟨a, ha, hstat⟩ := closing_line_has_statistic sp cc ip dt line hline
    have := (no_statistic_unless_success w argv hne).1 a
      (mem_of_mem_logLines _ line hmem a ha)
    rw [hstat] at this
    exact Bool.noConfusion this
  refine ⟨⟨?_, ?_⟩, ?_⟩
  · intro h
    obtain ⟨data, ap, data1, -, -, -, hl⟩ := successful_run w argv h
    refine ⟨w.SimilarPairsCount ap, w.CandidatesConsidered ap, w.IntersectionsPerformed ap,
      lsub w.endTime w.startTime, ?_⟩
    rw [hl]
    exact List.suffix_append _ _
  · rintro ⟨sp, cc, ip, dt, hsuf⟩
    by_contra hne
    exact absent hne sp cc ip dt (foundLine sp) (by simp) (hsuf.subset (by simp))
  · intro h
    have hne : (main w argv).exitCode ≠ 0 := by
      rcases h with h | h <;> rw [h] <;> decide
    obtain ⟨-, h1, h2, h3⟩ := no_statistic_unless_success w argv hne
    refine ⟨?_, ?_, absent hne, h1, h2, h3⟩
    · rcases main_paths w argv with ⟨_, hm⟩ | ⟨_, _, _, _, _, hm⟩
        | ⟨_, _, _, rfl, _, _, hm⟩ | ⟨_, _, _, _, _, _, rfl, _, _, _, hm⟩
        | ⟨_, _, _, _, _, _, _, _, _, _, hm⟩
      · rw [hm] at h
        simp at h
      · rw [hm] at h
        simp at h
      · rw [hm]
        simp [List.prefix_iff_eq_append]
      · rw [hm]
        simp [traceToRun, List.prefix_iff_eq_append]
      · rw [hm] at h
        simp at h
    · rcases main_paths w argv with ⟨_, hm⟩ | ⟨_, _, _, _, _, hm⟩
        | ⟨_, _, _, rfl, _, _, hm⟩ | ⟨_, _, _, _, _, _, rfl, _, _, _, hm⟩
        | ⟨_, _, _, _, _, _, _, _, _, _, hm⟩
      · rw [hm] at h
        simp at h
      · rw [hm] at h
        simp at h
      · rw [hm, stderrOf_not_opened]
        change (logLines (thresholdLine _ ++ newline :: [])).head? = _
        rw [logLines_line _ _ (thresholdLine_no_newline _)]
        simp
      · rw [hm, stderrOf_append, stderrOf_traceToRun, List.append_assoc]
        change (logLines (thresholdLine _ ++ newline :: _)).head? = _
        rw [logLines_line _ _ (thresholdLine_no_newline _)]
        simp
      · rw [hm] at h
        simp at h

end Log

/-! ## The theorems at concrete invocations -/

/-- Witness of C3: `./ap 2` has one positional argument, which moreover is out of range
as a threshold; the exit code is 1 and not 2. -/
theorem exit_one_iff_wrong_argument_count_witness :
    ["./ap", "2"].length ≠ 3
    ∧ ((sampleWorld true).strtod "2").gt (.finite 1) = true
    ∧ (main (sampleWorld true) ["./ap", "2"]).exitCode = 1
    ∧ (main (sampleWorld true) ["./ap", "2"]).exitCode ≠ 2 :=
  ⟨by decide, by decide,
   (exit_one_iff_wrong_argument_count (sampleWorld true) ["./ap", "2"]).1.mpr (by decide),
   (exit_one_iff_wrong_argument_count (sampleWorld true) ["./ap", "2"]).2 (by decide)⟩

/-- Witness of C4: `./ap 1 data.bin` in a world whose run fails exits with code 4 after
writing the error message. -/
theorem exit_code_follows_run_result_witness :
    (main (sampleWorld false) ["./ap", "1", "data.bin"]).exitCode = 4
    ∧ stderrOf (main (sampleWorld false) ["./ap", "1", "data.bin"]).trace
        = thresholdLine (.finite 1) ++ [newline]
            ++ (txt "ERROR: " ++ txt "read error" ++ [newline]) :=
  ⟨(exit_code_follows_run_result (sampleWorld false) ["./ap", "1", "data.bin"] (by decide)
      (by decide) [[0, 1, 2], [0, 1, 2], [3, 4, 5]] (by decide)).1.mpr rfl,
   ((exit_code_follows_run_result (sampleWorld false) ["./ap", "1", "data.bin"] (by decide)
      (by decide) [[0, 1, 2], [0, 1, 2], [3, 4, 5]] (by decide)).2.2 rfl).2⟩

/-- Witness of C5: `./ap 1 missing.bin` passes both checks, the data source does not
open, and the exit code is 3 without a call of `FindAllSimilarPairs`. -/
theorem exit_three_iff_not_opened_witness :
    (main (sampleWorld true) ["./ap", "1", "missing.bin"]).exitCode = 3
    ∧ ∀ t a b, Event.findAllSimilarPairs t a b
        ∉ (main (sampleWorld true) ["./ap", "1", "missing.bin"]).trace :=
  ⟨(exit_three_iff_not_opened (sampleWorld true) ["./ap", "1", "missing.bin"] (by decide)
      (by decide)).1.mpr (by decide),
   (exit_three_iff_not_opened (sampleWorld true) ["./ap", "1", "missing.bin"] (by decide)
      (by decide)).2 (by decide)⟩

/-- Witness of C6: `./ap 2 data.bin` exits with code 2 and its whole log is the
threshold-range line. -/
theorem configuration_error_before_any_work_witness :
    (main (sampleWorld true) ["./ap", "2", "data.bin"]).exitCode = 2
    ∧ (∀ path, Event.get path ∉ (main (sampleWorld true) ["./ap", "2", "data.bin"]).trace)
    ∧ logLines (stderrOf (main (sampleWorld true) ["./ap", "2", "data.bin"]).trace)
        = [thresholdErrorLine] :=
  ⟨by decide,
   (configuration_error_before_any_work (sampleWorld true) ["./ap", "2", "data.bin"]
      (Or.inr (by decide))).1,
   (configuration_error_before_any_work (sampleWorld true) ["./ap", "2", "data.bin"]
      (Or.inr (by decide))).2.2.2.2.1⟩

set_option maxRecDepth 8000 in
/-- C8 as stated fails at `./ap 1 data.bin` with a successful run: the exit code is 0
and the log has the threshold line followed by four lines, not three. -/
theorem success_log_has_four_closing_lines :
    (main (sampleWorld true) ["./ap", "1", "data.bin"]).exitCode = 0
    ∧ logLines (stderrOf (main (sampleWorld true) ["./ap", "1", "data.bin"]).trace)
        = [thresholdLine (.finite 1), foundLine 1, candidatesLine 1, intersectionsLine 1,
            runningTimeLine 7]
    ∧ (logLines (stderrOf (main (sampleWorld true) ["./ap", "1", "data.bin"]).trace)).length
        ≠ 1 + 3 := by
  decide

/-- Witness of C8 as amended: the log of the successful sample run has five lines. -/
theorem success_log_lines_witness :
    (main (sampleWorld true) ["./ap", "1", "data.bin"]).exitCode = 0
    ∧ (logLines (stderrOf (main (sampleWorld true) ["./ap", "1", "data.bin"]).trace)).length
        = 1 + 4 := by
  refine ⟨by decide, ?_⟩
  obtain ⟨data, ap, data1, -, -, -, hl⟩ :=
    success_log_lines (sampleWorld true) ["./ap", "1", "data.bin"] (by decide)
  rw [hl]
  rfl

/-- Witness of C10: the failed sample run exits with code 4, has written the threshold
log line, and calls no statistics accessor. -/
theorem statistics_reported_only_after_success_witness :
    (main (sampleWorld false) ["./ap", "1", "data.bin"]).exitCode = 4
    ∧ ([Event.time] ++ thresholdLog (.finite 1))
        <+: (main (sampleWorld false) ["./ap", "1", "data.bin"]).trace
    ∧ Event.similarPairsCount ∉ (main (sampleWorld false) ["./ap", "1", "data.bin"]).trace :=
  ⟨by decide,
   ((statistics_reported_only_after_success (sampleWorld false) ["./ap", "1", "data.bin"]).2
      (Or.inr (by decide))).1,
   ((statistics_reported_only_after_success (sampleWorld false) ["./ap", "1", "data.bin"]).2
      (Or.inr (by decide))).2.2.2.1⟩

end AllPairsMain
